import Mathlib

/-
Verification of the eApproval workflow (src/app.py).

The embedding below translates the workflow logic of `app.py` into Lean:
the `ApprovalRequest` model (the SQLAlchemy model at the top of app.py),
creation (`new_request`), the approve/reject conditional chains
(`approve_request`, `reject_request`), the per-request view gate
(`view_request`), the role-scoped dashboard listing (`dashboard`) and the
PDF download gate (`generate_pdf`).  Stage statuses and roles are strings
drawn from closed sets in the source, embedded here as closed inductive
types; the derived `status` column stays a `String` exactly as in the
source.  PDF rendering is an external effect; the embedding records
whether the artifact-writing block ran and whether it succeeded
(parameter `pdfOk` standing for the try/except around the reportlab
calls).
-/

namespace EApproval

/-- Stage status values: the strings "Pending" / "Approved" / "Rejected"
stored in the `class_teacher_status`, `hod_status` and `principal_status`
columns of `ApprovalRequest` in app.py. -/
inductive StageStatus where
  | Pending
  | Approved
  | Rejected
deriving DecidableEq, Repr

/-- Roles: the closed set of values of `User.role` in app.py
(comment on the column: student, class_teacher, hod, principal). -/
inductive Role where
  | student
  | class_teacher
  | hod
  | principal
deriving DecidableEq, Repr

/-- The `ApprovalRequest` model of app.py.  `creator_username` denormalises
the joined `User.username` of the creator (the `creator` relationship),
which the dashboard search and the PDF header read. -/
structure ApprovalRequest where
  id : Nat
  title : String
  description : String
  status : String
  created_by : Nat
  creator_username : String
  class_teacher_status : StageStatus
  hod_status : StageStatus
  principal_status : StageStatus
  created_at : Nat
deriving DecidableEq, Repr

/-- Python str.strip(): drop whitespace from both ends.  Implemented by
structural recursion on the character list so that concrete instances
reduce inside the kernel. -/
def pyStrip (s : String) : String :=
  String.mk
    (((s.data.dropWhile fun c => c.isWhitespace).reverse.dropWhile
        fun c => c.isWhitespace).reverse)

/-- Python str.lower() (restricted to the ASCII lowering that
`Char.toLower` performs), by structural recursion on the character
list. -/
def pyLower (s : String) : String :=
  String.mk (s.data.map Char.toLower)

/-- Errors of the creation route `new_request` in app.py: the role gate
("Only students can create requests.") and the input check
("Title and content are required."). -/
inductive CreateError where
  | NotStudent
  | InvalidInput
deriving DecidableEq, Repr

instance : DecidableEq (Except CreateError ApprovalRequest) :=
  fun a b =>
    match a, b with
    | Except.ok x, Except.ok y =>
      if h : x = y then Decidable.isTrue (by rw [h]) else Decidable.isFalse (by simp [h])
    | Except.error x, Except.error y =>
      if h : x = y then Decidable.isTrue (by rw [h]) else Decidable.isFalse (by simp [h])
    | Except.ok _, Except.error _ => Decidable.isFalse (by simp)
    | Except.error _, Except.ok _ => Decidable.isFalse (by simp)

/-- Creation route `new_request` of app.py: non-students are redirected
away first; then title and description are stripped and both must be
non-empty; on success the row is inserted with the all-Pending triple and
overall status "Pending Class Teacher". -/
def new_request (role : Role) (uid : Nat) (uname : String)
    (title description : String) (rid created_at : Nat) :
    Except CreateError ApprovalRequest :=
  if role ≠ Role.student then Except.error CreateError.NotStudent
  else
    let t := pyStrip title
    let d := pyStrip description
    if t = "" ∨ d = "" then Except.error CreateError.InvalidInput
    else Except.ok
      { id := rid
        title := t
        description := d
        status := "Pending Class Teacher"
        created_by := uid
        creator_username := uname
        class_teacher_status := StageStatus.Pending
        hod_status := StageStatus.Pending
        principal_status := StageStatus.Pending
        created_at := created_at }

/-- Outcome of an approve/reject route call: the success flash, the
"Approved, but PDF generation failed" warning path, or the
"not authorized ... at this time" redirect. -/
inductive Outcome where
  | success
  | successWithWarning
  | unauthorized
deriving DecidableEq, Repr

/-- Result of one approve/reject route call: the (possibly updated)
request row, the outcome, and whether the PDF artifact file was written
during this call. -/
structure StepResult where
  req : ApprovalRequest
  outcome : Outcome
  generated : Bool
deriving DecidableEq, Repr

/-- Route `approve_request` of app.py: the cascading role/status checks.
`pdfOk` abstracts whether the reportlab PDF generation block (run only in
the principal branch) succeeds; on its failure the approval still commits
and a warning is flashed alongside the success flash. -/
def approve_request (actorRole : Role) (pdfOk : Bool) (r : ApprovalRequest) :
    StepResult :=
  if actorRole = Role.class_teacher ∧ r.class_teacher_status = StageStatus.Pending then
    { req := { r with class_teacher_status := StageStatus.Approved
                      status := "Pending HOD" }
      outcome := Outcome.success
      generated := false }
  else if actorRole = Role.hod ∧ r.class_teacher_status = StageStatus.Approved ∧
      r.hod_status = StageStatus.Pending then
    { req := { r with hod_status := StageStatus.Approved
                      status := "Pending Principal" }
      outcome := Outcome.success
      generated := false }
  else if actorRole = Role.principal ∧ r.hod_status = StageStatus.Approved ∧
      r.principal_status = StageStatus.Pending then
    { req := { r with principal_status := StageStatus.Approved
                      status := "Approved" }
      outcome := if pdfOk then Outcome.success else Outcome.successWithWarning
      generated := pdfOk }
  else
    { req := r, outcome := Outcome.unauthorized, generated := false }

/-- Route `reject_request` of app.py: takes the stage name from the URL
(`roleParam`) and requires it to match the caller's role, plus the same
status preconditions as approval; rejection never generates a PDF. -/
def reject_request (roleParam actorRole : Role) (r : ApprovalRequest) :
    StepResult :=
  if roleParam = Role.class_teacher ∧ actorRole = Role.class_teacher ∧
      r.class_teacher_status = StageStatus.Pending then
    { req := { r with class_teacher_status := StageStatus.Rejected
                      status := "Rejected by Class Teacher" }
      outcome := Outcome.success
      generated := false }
  else if roleParam = Role.hod ∧ actorRole = Role.hod ∧
      r.class_teacher_status = StageStatus.Approved ∧
      r.hod_status = StageStatus.Pending then
    { req := { r with hod_status := StageStatus.Rejected
                      status := "Rejected by HOD" }
      outcome := Outcome.success
      generated := false }
  else if roleParam = Role.principal ∧ actorRole = Role.principal ∧
      r.hod_status = StageStatus.Approved ∧
      r.principal_status = StageStatus.Pending then
    { req := { r with principal_status := StageStatus.Rejected
                      status := "Rejected by Principal" }
      outcome := Outcome.success
      generated := false }
  else
    { req := r, outcome := Outcome.unauthorized, generated := false }

/-- One mutating route call on a request: an approval attempt by a role
(with the PDF-success oracle) or a rejection attempt (URL stage name plus
caller role). -/
inductive Action where
  | approve (actorRole : Role) (pdfOk : Bool)
  | reject (roleParam actorRole : Role)
deriving DecidableEq, Repr

/-- Dispatch one action to the corresponding route handler. -/
def applyAction (a : Action) (r : ApprovalRequest) : StepResult :=
  match a with
  | Action.approve actorRole pdfOk => approve_request actorRole pdfOk r
  | Action.reject roleParam actorRole => reject_request roleParam actorRole r

/-- Run a sequence of route calls, keeping the resulting request row. -/
def runActions : List Action → ApprovalRequest → ApprovalRequest
  | [], r => r
  | a :: as, r => runActions as (applyAction a r).req

/-- Number of PDF artifacts written over a sequence of route calls. -/
def runGenCount : List Action → ApprovalRequest → Nat
  | [], _ => 0
  | a :: as, r =>
    (if (applyAction a r).generated = true then 1 else 0) +
      runGenCount as (applyAction a r).req

/-- Requests reachable in app.py: created by the `new_request` route and
then mutated only by the approve/reject routes. -/
inductive Reachable : ApprovalRequest → Prop where
  | init : ∀ (role : Role) (uid : Nat) (uname title description : String)
      (rid ca : Nat) (r : ApprovalRequest),
      new_request role uid uname title description rid ca = Except.ok r →
      Reachable r
  | step : ∀ (a : Action) (r : ApprovalRequest), Reachable r →
      Reachable (applyAction a r).req

/-- Modelled from the spec: the status-derivation table of spec section
4.3, mapping the stage-status triple to the overall status string.  Kept
separate from the source embedding so that the source-produced `status`
column can be compared against it. -/
def spec_derivedStatus : StageStatus → StageStatus → StageStatus → String
  | StageStatus.Pending, _, _ => "Pending Class Teacher"
  | StageStatus.Rejected, _, _ => "Rejected by Class Teacher"
  | StageStatus.Approved, StageStatus.Pending, _ => "Pending HOD"
  | StageStatus.Approved, StageStatus.Rejected, _ => "Rejected by HOD"
  | StageStatus.Approved, StageStatus.Approved, StageStatus.Pending => "Pending Principal"
  | StageStatus.Approved, StageStatus.Approved, StageStatus.Rejected => "Rejected by Principal"
  | StageStatus.Approved, StageStatus.Approved, StageStatus.Approved => "Approved"

/-- Monotonic-ordering invariant: a later stage left Pending-free only
when the earlier stage is Approved. -/
def Mono (r : ApprovalRequest) : Prop :=
  (r.hod_status ≠ StageStatus.Pending → r.class_teacher_status = StageStatus.Approved) ∧
  (r.principal_status ≠ StageStatus.Pending → r.hod_status = StageStatus.Approved)

/-- Full inductive invariant: the stored `status` string matches the
derivation table and the monotonic ordering holds. -/
def Inv (r : ApprovalRequest) : Prop :=
  r.status = spec_derivedStatus r.class_teacher_status r.hod_status r.principal_status ∧
  Mono r

/-- Result of the `view_request` route: render the page or redirect away
with a "not authorized" flash. -/
inductive ViewResult where
  | allowed
  | denied
deriving DecidableEq, Repr

/-- Route `view_request` of app.py: students only their own requests;
hod blocked only while `class_teacher_status` is Pending; principal
blocked only while `hod_status` is Pending. -/
def view_request (role : Role) (uid : Nat) (r : ApprovalRequest) : ViewResult :=
  if role = Role.student ∧ r.created_by ≠ uid then ViewResult.denied
  else if role = Role.hod ∧ r.class_teacher_status = StageStatus.Pending then ViewResult.denied
  else if role = Role.principal ∧ r.hod_status = StageStatus.Pending then ViewResult.denied
  else ViewResult.allowed

/-- Result of the `generate_pdf` download route: send the file, or one of
the three redirect-with-flash failure paths. -/
inductive FetchResult where
  | success
  | unauthorized
  | notReady
  | notFound
deriving DecidableEq, Repr

/-- Route `generate_pdf` of app.py (the PDF download): students may only
fetch their own request's file; the file is withheld until the principal
has approved; a missing file is reported as not found.  `fileExists`
abstracts the `os.path.exists(pdf_path)` check. -/
def generate_pdf (role : Role) (uid : Nat) (fileExists : Bool)
    (r : ApprovalRequest) : FetchResult :=
  if role = Role.student ∧ r.created_by ≠ uid then FetchResult.unauthorized
  else if r.principal_status ≠ StageStatus.Approved then FetchResult.notReady
  else if fileExists = false then FetchResult.notFound
  else FetchResult.success

/-- Character-list version of "starts with". -/
def startsWithL : List Char → List Char → Bool
  | [], _ => true
  | _ :: _, [] => false
  | a :: as, b :: bs => a == b && startsWithL as bs

/-- Character-list substring containment (needle occurs inside haystack),
the semantics of SQL `ILIKE '%needle%'` once both sides are lowercased. -/
def containsL (needle : List Char) : List Char → Bool
  | [] => startsWithL needle []
  | b :: bs => startsWithL needle (b :: bs) || containsL needle bs

/-- Search predicate of the dashboard: the already-lowercased query `q`
occurs in the lowercased title or in the lowercased creator username
(the `ilike` filter on the join in app.py). -/
def matchesQuery (q : String) (r : ApprovalRequest) : Bool :=
  containsL q.data (pyLower r.title).data ||
    containsL q.data (pyLower r.creator_username).data

/-- Role scoping of the dashboard route's base query in app.py. -/
def roleScope (role : Role) (uid : Nat) (r : ApprovalRequest) : Bool :=
  match role with
  | Role.student => r.created_by == uid
  | Role.class_teacher => true
  | Role.hod => r.class_teacher_status == StageStatus.Approved
  | Role.principal => r.hod_status == StageStatus.Approved

/-- Insert a request into a list kept in descending `created_at` order. -/
def insertDesc (x : ApprovalRequest) : List ApprovalRequest → List ApprovalRequest
  | [] => [x]
  | y :: ys =>
    if y.created_at ≤ x.created_at then x :: y :: ys else y :: insertDesc x ys

/-- Sort a list of requests by `created_at` descending (the
`order_by(ApprovalRequest.created_at.desc())` of the dashboard query). -/
def sortDesc : List ApprovalRequest → List ApprovalRequest
  | [] => []
  | x :: xs => insertDesc x (sortDesc xs)

/-- Route `dashboard` of app.py: role-scoped base query, then the
optional stripped-and-lowercased search filter, then descending
`created_at` ordering. -/
def dashboard (role : Role) (uid : Nat) (qRaw : String)
    (store : List ApprovalRequest) : List ApprovalRequest :=
  let q := pyLower (pyStrip qRaw)
  let base := store.filter (fun r => roleScope role uid r)
  let filtered := if q = "" then base else base.filter (fun r => matchesQuery q r)
  sortDesc filtered

/-- Sample row: a freshly created request (all three stages Pending). -/
def sampleFresh : ApprovalRequest :=
  { id := 1, title := "Leave", description := "2 days",
    status := "Pending Class Teacher", created_by := 7,
    creator_username := "student1",
    class_teacher_status := StageStatus.Pending,
    hod_status := StageStatus.Pending,
    principal_status := StageStatus.Pending, created_at := 0 }

/-- Sample row: class teacher has approved, HOD pending. -/
def sampleCT : ApprovalRequest :=
  { id := 2, title := "Leave", description := "2 days",
    status := "Pending HOD", created_by := 7,
    creator_username := "student1",
    class_teacher_status := StageStatus.Approved,
    hod_status := StageStatus.Pending,
    principal_status := StageStatus.Pending, created_at := 1 }

/-- Sample row: class teacher and HOD approved, principal pending. -/
def sampleMid : ApprovalRequest :=
  { id := 3, title := "Leave", description := "2 days",
    status := "Pending Principal", created_by := 7,
    creator_username := "student1",
    class_teacher_status := StageStatus.Approved,
    hod_status := StageStatus.Approved,
    principal_status := StageStatus.Pending, created_at := 2 }

/-- Sample row: fully approved request. -/
def sampleFinal : ApprovalRequest :=
  { id := 4, title := "Leave", description := "2 days",
    status := "Approved", created_by := 7,
    creator_username := "student1",
    class_teacher_status := StageStatus.Approved,
    hod_status := StageStatus.Approved,
    principal_status := StageStatus.Approved, created_at := 3 }

/-- Sample row: rejected by the class teacher. -/
def sampleRejCT : ApprovalRequest :=
  { id := 5, title := "Trip", description := "3 days",
    status := "Rejected by Class Teacher", created_by := 7,
    creator_username := "student1",
    class_teacher_status := StageStatus.Rejected,
    hod_status := StageStatus.Pending,
    principal_status := StageStatus.Pending, created_at := 4 }

end EApproval

namespace EApproval

/-- Creation establishes the invariant: the row is inserted with the
all-Pending triple and status "Pending Class Teacher". -/
theorem new_request_Inv (role : Role) (uid : Nat) (uname title description : String)
    (rid ca : Nat) (r : ApprovalRequest)
    (h : new_request role uid uname title description rid ca = Except.ok r) :
    Inv r := by
  simp only [new_request] at h
  split at h
  · exact absurd h (by simp)
  · split at h
    · exact absurd h (by simp)
    · simp only [Except.ok.injEq] at h
      subst h
      simp [Inv, Mono, spec_derivedStatus]

/-- Each branch of the approval route rewrites `status` to the table value
of the new triple and preserves the monotonic ordering. -/
theorem approve_preserves_Inv (role : Role) (pdfOk : Bool) (r : ApprovalRequest)
    (h : Inv r) : Inv (approve_request role pdfOk r).req := by
  obtain ⟨hs, hm1, hm2⟩ := h
  rcases r with ⟨rid, title, description, status, cb, cu, ct, hh, pp, ca⟩
  simp only [Inv, Mono] at *
  cases role <;> cases ct <;> cases hh <;> cases pp <;>
    simp_all [approve_request, spec_derivedStatus]

/-- Each branch of the rejection route rewrites `status` to the table value
of the new triple and preserves the monotonic ordering. -/
theorem reject_preserves_Inv (roleParam actorRole : Role) (r : ApprovalRequest)
    (h : Inv r) : Inv (reject_request roleParam actorRole r).req := by
  obtain ⟨hs, hm1, hm2⟩ := h
  rcases r with ⟨rid, title, description, status, cb, cu, ct, hh, pp, ca⟩
  simp only [Inv, Mono] at *
  cases roleParam <;> cases actorRole <;> cases ct <;> cases hh <;> cases pp <;>
    simp_all [reject_request, spec_derivedStatus]

/-- Every reachable request satisfies the full invariant. -/
theorem reachable_Inv (r : ApprovalRequest) (h : Reachable r) : Inv r := by
  induction h with
  | init role uid uname title description rid ca r heq =>
    exact new_request_Inv role uid uname title description rid ca r heq
  | step a r hr ih =>
    cases a with
    | approve actorRole pdfOk => exact approve_preserves_Inv actorRole pdfOk r ih
    | reject roleParam actorRole => exact reject_preserves_Inv roleParam actorRole r ih

/-- Claim C1: for every request reachable from creation through any
sequence of approve/reject operations, the stored overall `status` string
equals the value of the derivation table (spec 4.3) at the current
stage-status triple. -/
theorem overall_status_matches_derivation_table (r : ApprovalRequest)
    (h : Reachable r) :
    r.status =
      spec_derivedStatus r.class_teacher_status r.hod_status r.principal_status :=
  (reachable_Inv r h).1

theorem overall_status_matches_derivation_table_witness :
    sampleFresh.status =
      spec_derivedStatus sampleFresh.class_teacher_status sampleFresh.hod_status
        sampleFresh.principal_status :=
  overall_status_matches_derivation_table sampleFresh
    (Reachable.init Role.student 7 "student1" "Leave" "2 days" 1 0 sampleFresh
      (by decide))

/-- One route call never changes a stage status that is already
non-Pending. -/
theorem step_stages_stable (a : Action) (r : ApprovalRequest) :
    (r.class_teacher_status ≠ StageStatus.Pending →
      (applyAction a r).req.class_teacher_status = r.class_teacher_status) ∧
    (r.hod_status ≠ StageStatus.Pending →
      (applyAction a r).req.hod_status = r.hod_status) ∧
    (r.principal_status ≠ StageStatus.Pending →
      (applyAction a r).req.principal_status = r.principal_status) := by
  rcases r with ⟨rid, title, description, status, cb, cu, ct, hh, pp, ca⟩
  obtain ⟨role, pdfOk⟩ | ⟨rp, role⟩ := a
  · cases role <;> cases ct <;> cases hh <;> cases pp <;>
      simp_all [applyAction, approve_request]
  · cases rp <;> cases role <;> cases ct <;> cases hh <;> cases pp <;>
      simp_all [applyAction, reject_request]

/-- No sequence of route calls changes a stage status that is already
non-Pending. -/
theorem run_stages_stable (as : List Action) :
    ∀ r : ApprovalRequest,
    (r.class_teacher_status ≠ StageStatus.Pending →
      (runActions as r).class_teacher_status = r.class_teacher_status) ∧
    (r.hod_status ≠ StageStatus.Pending →
      (runActions as r).hod_status = r.hod_status) ∧
    (r.principal_status ≠ StageStatus.Pending →
      (runActions as r).principal_status = r.principal_status) := by
  induction as with
  | nil => intro r; simp [runActions]
  | cons a as ih =>
    intro r
    obtain ⟨s1, s2, s3⟩ := step_stages_stable a r
    obtain ⟨t1, t2, t3⟩ := ih (applyAction a r).req
    refine ⟨?_, ?_, ?_⟩ <;> intro h
    · rw [runActions, t1 (by rw [s1 h]; exact h), s1 h]
    · rw [runActions, t2 (by rw [s2 h]; exact h), s2 h]
    · rw [runActions, t3 (by rw [s3 h]; exact h), s3 h]

/-- Claim C2: a stage status, once non-Pending, is never changed by any
further sequence of approve/reject calls by any role; in particular, after
a successful HOD approval a second HOD approval fails as unauthorized and
leaves the request exactly as the first call left it. -/
theorem stage_status_terminal (as : List Action) (r : ApprovalRequest) :
    ((r.class_teacher_status ≠ StageStatus.Pending →
        (runActions as r).class_teacher_status = r.class_teacher_status) ∧
     (r.hod_status ≠ StageStatus.Pending →
        (runActions as r).hod_status = r.hod_status) ∧
     (r.principal_status ≠ StageStatus.Pending →
        (runActions as r).principal_status = r.principal_status)) ∧
    (∀ pdfOk pdfOk2 : Bool,
      r.class_teacher_status = StageStatus.Approved →
      r.hod_status = StageStatus.Pending →
      (approve_request Role.hod pdfOk r).outcome = Outcome.success ∧
      (approve_request Role.hod pdfOk2 (approve_request Role.hod pdfOk r).req).outcome =
        Outcome.unauthorized ∧
      (approve_request Role.hod pdfOk2 (approve_request Role.hod pdfOk r).req).req =
        (approve_request Role.hod pdfOk r).req) := by
  refine ⟨run_stages_stable as r, ?_⟩
  intro pdfOk pdfOk2 h1 h2
  rcases r with ⟨rid, title, description, status, cb, cu, ct, hh, pp, ca⟩
  simp only at h1 h2
  subst h1; subst h2
  simp [approve_request]

theorem stage_status_terminal_witness :
    (runActions [Action.approve Role.hod true] sampleCT).class_teacher_status =
      sampleCT.class_teacher_status ∧
    (approve_request Role.hod true sampleCT).outcome = Outcome.success ∧
    (approve_request Role.hod false (approve_request Role.hod true sampleCT).req).outcome =
      Outcome.unauthorized ∧
    (approve_request Role.hod false (approve_request Role.hod true sampleCT).req).req =
      (approve_request Role.hod true sampleCT).req :=
  ⟨(stage_status_terminal [Action.approve Role.hod true] sampleCT).1.1 (by decide),
   ((stage_status_terminal [] sampleCT).2 true false rfl rfl).1,
   ((stage_status_terminal [] sampleCT).2 true false rfl rfl).2.1,
   ((stage_status_terminal [] sampleCT).2 true false rfl rfl).2.2⟩

/-- Claim C3: an approve or reject on the principal stage escapes the
unauthorized path exactly when `hod_status` is Approved and
`principal_status` is Pending, and symmetrically the hod stage requires
`class_teacher_status` Approved and `hod_status` Pending; under those
preconditions the matching role's action succeeds. -/
theorem stage_action_preconditions (r : ApprovalRequest) (pdfOk : Bool) :
    ((approve_request Role.principal pdfOk r).outcome ≠ Outcome.unauthorized ↔
       r.hod_status = StageStatus.Approved ∧
         r.principal_status = StageStatus.Pending) ∧
    ((reject_request Role.principal Role.principal r).outcome ≠ Outcome.unauthorized ↔
       r.hod_status = StageStatus.Approved ∧
         r.principal_status = StageStatus.Pending) ∧
    ((approve_request Role.hod pdfOk r).outcome ≠ Outcome.unauthorized ↔
       r.class_teacher_status = StageStatus.Approved ∧
         r.hod_status = StageStatus.Pending) ∧
    ((reject_request Role.hod Role.hod r).outcome ≠ Outcome.unauthorized ↔
       r.class_teacher_status = StageStatus.Approved ∧
         r.hod_status = StageStatus.Pending) := by
  rcases r with ⟨rid, title, description, status, cb, cu, ct, hh, pp, ca⟩
  cases ct <;> cases hh <;> cases pp <;> cases pdfOk <;>
    simp [approve_request, reject_request]

theorem stage_action_preconditions_witness :
    (approve_request Role.principal true sampleMid).outcome ≠ Outcome.unauthorized :=
  ((stage_action_preconditions sampleMid true).1).mpr ⟨rfl, rfl⟩

/-- Claim C4: whenever an approve or reject attempt takes the unauthorized
path, the request row is returned completely unchanged (all three stage
statuses and the overall status included). -/
theorem denied_action_leaves_request_unchanged (a : Action) (r : ApprovalRequest)
    (h : (applyAction a r).outcome = Outcome.unauthorized) :
    (applyAction a r).req = r := by
  rcases r with ⟨rid, title, description, status, cb, cu, ct, hh, pp, ca⟩
  obtain ⟨role, pdfOk⟩ | ⟨rp, role⟩ := a
  · cases role <;> cases ct <;> cases hh <;> cases pp <;> cases pdfOk <;>
      simp_all [applyAction, approve_request]
  · cases rp <;> cases role <;> cases ct <;> cases hh <;> cases pp <;>
      simp_all [applyAction, reject_request]

theorem denied_action_leaves_request_unchanged_witness :
    (applyAction (Action.approve Role.student true) sampleCT).req = sampleCT :=
  denied_action_leaves_request_unchanged (Action.approve Role.student true) sampleCT
    (by decide)

/-- A call writes the PDF artifact only when it is the principal's
approval of a request whose principal stage was Pending, which it sets to
Approved (and only with the generation oracle reporting success). -/
theorem step_generated (a : Action) (r : ApprovalRequest)
    (h : (applyAction a r).generated = true) :
    r.principal_status = StageStatus.Pending ∧
    (applyAction a r).req.principal_status = StageStatus.Approved ∧
    a = Action.approve Role.principal true := by
  rcases r with ⟨rid, title, description, status, cb, cu, ct, hh, pp, ca⟩
  obtain ⟨role, pdfOk⟩ | ⟨rp, role⟩ := a
  · cases role <;> cases ct <;> cases hh <;> cases pp <;> cases pdfOk <;>
      simp_all [applyAction, approve_request]
  · cases rp <;> cases role <;> cases ct <;> cases hh <;> cases pp <;>
      simp_all [applyAction, reject_request]

/-- Once the principal stage is non-Pending, no further call ever writes
an artifact. -/
theorem runGenCount_zero (as : List Action) :
    ∀ r : ApprovalRequest, r.principal_status ≠ StageStatus.Pending →
      runGenCount as r = 0 := by
  induction as with
  | nil => intro r _; rfl
  | cons a as ih =>
    intro r h
    have hg : ¬ (applyAction a r).generated = true := fun hgen =>
      absurd (step_generated a r hgen).1 h
    have hstable := (step_stages_stable a r).2.2
    rw [runGenCount, if_neg hg, ih (applyAction a r).req (by rw [hstable h]; exact h)]

/-- Over any sequence of route calls the artifact is written at most
once. -/
theorem runGenCount_le_one (as : List Action) :
    ∀ r : ApprovalRequest, runGenCount as r ≤ 1 := by
  induction as with
  | nil => intro r; exact Nat.zero_le 1
  | cons a as ih =>
    intro r
    by_cases hg : (applyAction a r).generated = true
    · have hpost := (step_generated a r hg).2.1
      rw [runGenCount, if_pos hg,
        runGenCount_zero as (applyAction a r).req (by rw [hpost]; simp)]
    · rw [runGenCount, if_neg hg]
      simpa using ih (applyAction a r).req

/-- Claim C5: the signed document artifact is written only during the
principal-approval transition that moves `principal_status` from Pending
to Approved, and over any sequence of approve/reject calls it is written
at most once (so an existing artifact is never regenerated). -/
theorem artifact_generated_at_most_once (a : Action) (as : List Action)
    (r : ApprovalRequest) :
    ((applyAction a r).generated = true →
       r.principal_status = StageStatus.Pending ∧
       (applyAction a r).req.principal_status = StageStatus.Approved ∧
       a = Action.approve Role.principal true) ∧
    runGenCount as r ≤ 1 :=
  ⟨step_generated a r, runGenCount_le_one as r⟩

theorem artifact_generated_at_most_once_witness :
    (sampleMid.principal_status = StageStatus.Pending ∧
     (applyAction (Action.approve Role.principal true) sampleMid).req.principal_status =
       StageStatus.Approved ∧
     Action.approve Role.principal true = Action.approve Role.principal true) ∧
    runGenCount
      [Action.approve Role.principal true, Action.approve Role.principal true]
      sampleMid ≤ 1 :=
  ⟨(artifact_generated_at_most_once (Action.approve Role.principal true) [] sampleMid).1
      (by decide),
   (artifact_generated_at_most_once (Action.approve Role.principal true)
      [Action.approve Role.principal true, Action.approve Role.principal true]
      sampleMid).2⟩

/-- Claim C6: when the principal's approval triggers document generation
and generation fails, the approval still commits — the principal stage
becomes Approved, the overall status becomes "Approved", the other stages
are untouched — and the caller sees a warning outcome distinct from the
plain success outcome (and no artifact is written). -/
theorem generation_failure_does_not_roll_back (r : ApprovalRequest)
    (h1 : r.hod_status = StageStatus.Approved)
    (h2 : r.principal_status = StageStatus.Pending) :
    (approve_request Role.principal false r).req.principal_status =
        StageStatus.Approved ∧
    (approve_request Role.principal false r).req.status = "Approved" ∧
    (approve_request Role.principal false r).req.class_teacher_status =
        r.class_teacher_status ∧
    (approve_request Role.principal false r).req.hod_status = r.hod_status ∧
    (approve_request Role.principal false r).outcome = Outcome.successWithWarning ∧
    Outcome.successWithWarning ≠ Outcome.success ∧
    (approve_request Role.principal false r).generated = false := by
  rcases r with ⟨rid, title, description, status, cb, cu, ct, hh, pp, ca⟩
  simp only at h1 h2
  subst h1; subst h2
  simp [approve_request]

theorem generation_failure_does_not_roll_back_witness :
    (approve_request Role.principal false sampleMid).req.principal_status =
        StageStatus.Approved ∧
    (approve_request Role.principal false sampleMid).req.status = "Approved" ∧
    (approve_request Role.principal false sampleMid).req.class_teacher_status =
        sampleMid.class_teacher_status ∧
    (approve_request Role.principal false sampleMid).req.hod_status =
        sampleMid.hod_status ∧
    (approve_request Role.principal false sampleMid).outcome =
        Outcome.successWithWarning ∧
    Outcome.successWithWarning ≠ Outcome.success ∧
    (approve_request Role.principal false sampleMid).generated = false :=
  generation_failure_does_not_roll_back sampleMid rfl rfl

end EApproval

namespace EApproval

/-- Membership in a descending insertion keeps exactly the inserted
element plus the old elements. -/
theorem mem_insertDesc (x a : ApprovalRequest) (l : List ApprovalRequest) :
    a ∈ insertDesc x l ↔ a = x ∨ a ∈ l := by
  induction l with
  | nil => simp [insertDesc]
  | cons y ys ih =>
    simp only [insertDesc]
    split
    · simp [List.mem_cons]
    · simp only [List.mem_cons, ih]
      tauto

/-- Sorting does not change the members of the list. -/
theorem mem_sortDesc (a : ApprovalRequest) (l : List ApprovalRequest) :
    a ∈ sortDesc l ↔ a ∈ l := by
  induction l with
  | nil => simp [sortDesc]
  | cons y ys ih =>
    simp only [sortDesc, mem_insertDesc, List.mem_cons, ih]

/-- Descending insertion preserves descending order. -/
theorem pairwise_insertDesc (x : ApprovalRequest) (l : List ApprovalRequest)
    (h : List.Pairwise (fun a b => b.created_at ≤ a.created_at) l) :
    List.Pairwise (fun a b => b.created_at ≤ a.created_at) (insertDesc x l) := by
  induction l with
  | nil => simp [insertDesc]
  | cons y ys ih =>
    rw [List.pairwise_cons] at h
    obtain ⟨h1, h2⟩ := h
    simp only [insertDesc]
    split
    · rename_i hle
      refine List.Pairwise.cons ?_ (List.Pairwise.cons h1 h2)
      intro b hb
      rcases List.mem_cons.mp hb with rfl | hb
      · exact hle
      · exact le_trans (h1 b hb) hle
    · rename_i hgt
      refine List.Pairwise.cons ?_ (ih h2)
      intro b hb
      rcases (mem_insertDesc x b ys).mp hb with rfl | hb
      · exact le_of_not_le hgt
      · exact h1 b hb

/-- The sorted list is in descending `created_at` order. -/
theorem pairwise_sortDesc (l : List ApprovalRequest) :
    List.Pairwise (fun a b => b.created_at ≤ a.created_at) (sortDesc l) := by
  induction l with
  | nil => simp [sortDesc]
  | cons y ys ih => exact pairwise_insertDesc y (sortDesc ys) ih

/-- Dashboard membership characterisation: a request appears exactly when
it is stored, passes the role scope, and (if a search term survives
stripping) matches the case-insensitive title/creator filter. -/
theorem mem_dashboard_iff (role : Role) (uid : Nat) (qRaw : String)
    (store : List ApprovalRequest) (r : ApprovalRequest) :
    r ∈ dashboard role uid qRaw store ↔
      r ∈ store ∧ roleScope role uid r = true ∧
        (pyLower (pyStrip qRaw) = "" ∨
          matchesQuery (pyLower (pyStrip qRaw)) r = true) := by
  simp only [dashboard]
  by_cases hq : pyLower (pyStrip qRaw) = ""
  · simp [hq, mem_sortDesc, List.mem_filter]
  · simp only [if_neg hq, mem_sortDesc, List.mem_filter]
    simp only [hq, false_or]
    tauto

/-- Claim C7: the dashboard listing returns exactly the role-scoped
requests (student: own; class_teacher: all; hod: class-teacher-approved;
principal: hod-approved), further narrowed by the optional
case-insensitive title/creator substring filter applied after scoping,
and ordered by `created_at` descending. -/
theorem dashboard_listing_spec (role : Role) (uid : Nat) (qRaw : String)
    (store : List ApprovalRequest) (r : ApprovalRequest) :
    (r ∈ dashboard role uid qRaw store ↔
       r ∈ store ∧ roleScope role uid r = true ∧
         (pyLower (pyStrip qRaw) = "" ∨
           matchesQuery (pyLower (pyStrip qRaw)) r = true)) ∧
    roleScope Role.student uid r = (r.created_by == uid) ∧
    roleScope Role.class_teacher uid r = true ∧
    roleScope Role.hod uid r = (r.class_teacher_status == StageStatus.Approved) ∧
    roleScope Role.principal uid r = (r.hod_status == StageStatus.Approved) ∧
    List.Pairwise (fun a b => b.created_at ≤ a.created_at)
      (dashboard role uid qRaw store) :=
  ⟨mem_dashboard_iff role uid qRaw store r, rfl, rfl, rfl, rfl,
   pairwise_sortDesc _⟩

theorem dashboard_listing_spec_witness :
    sampleCT ∈ dashboard Role.hod 0 "" [sampleFresh, sampleCT] ∧
    sampleFresh ∉ dashboard Role.hod 0 "" [sampleFresh, sampleCT] :=
  ⟨(dashboard_listing_spec Role.hod 0 "" [sampleFresh, sampleCT] sampleCT).1.mpr
      ⟨by simp, rfl, Or.inl rfl⟩,
   fun hmem =>
     absurd
       ((dashboard_listing_spec Role.hod 0 "" [sampleFresh, sampleCT]
           sampleFresh).1.mp hmem).2.1
       (by decide)⟩

/-- Claim C8: fetching the generated document succeeds exactly when the
caller is the creator or holds a staff role, the principal has approved,
and the artifact file exists; otherwise the three failure paths are a
non-owner-student authorization error, a not-ready error before principal
approval, and a not-found error for a missing file. -/
theorem pdf_fetch_gating (role : Role) (uid : Nat) (fileExists : Bool)
    (r : ApprovalRequest) :
    (generate_pdf role uid fileExists r = FetchResult.success ↔
       (r.created_by = uid ∨ role = Role.class_teacher ∨ role = Role.hod ∨
          role = Role.principal) ∧
       r.principal_status = StageStatus.Approved ∧ fileExists = true) ∧
    (role = Role.student → r.created_by ≠ uid →
       generate_pdf role uid fileExists r = FetchResult.unauthorized) ∧
    (¬ (role = Role.student ∧ r.created_by ≠ uid) →
       r.principal_status ≠ StageStatus.Approved →
       generate_pdf role uid fileExists r = FetchResult.notReady) ∧
    (¬ (role = Role.student ∧ r.created_by ≠ uid) →
       r.principal_status = StageStatus.Approved → fileExists = false →
       generate_pdf role uid fileExists r = FetchResult.notFound) := by
  rcases r with ⟨rid, title, description, status, cb, cu, ct, hh, pp, ca⟩
  by_cases hcb : cb = uid <;>
    cases role <;> cases pp <;> cases fileExists <;>
      simp_all [generate_pdf]

theorem pdf_fetch_gating_witness :
    generate_pdf Role.student 7 true sampleFinal = FetchResult.success ∧
    generate_pdf Role.student 8 true sampleFinal = FetchResult.unauthorized :=
  ⟨(pdf_fetch_gating Role.student 7 true sampleFinal).1.mpr
      ⟨Or.inl rfl, rfl, rfl⟩,
   (pdf_fetch_gating Role.student 8 true sampleFinal).2.1 rfl (by decide)⟩

/-- Claim C9, counterexample to the claim as stated: a creation attempt by
a class-teacher caller with an empty title and description does fail, but
with the role error of the route's first check, not with the input error
the claim promises for every creation attempt. -/
theorem creation_validation_counterexample :
    new_request Role.class_teacher 0 "teacher1" "" "" 1 0 ≠
      Except.error CreateError.InvalidInput := by decide

/-- Claim C9, amended: a student-role creation attempt with a missing or
whitespace-only title or description fails with the input error and no
entity is created; a non-student attempt fails with the role error
regardless of input; a student attempt with both fields non-empty after
stripping creates the request with the all-Pending triple and overall
status "Pending Class Teacher". -/
theorem creation_validation_amended (role : Role) (uid : Nat)
    (uname title description : String) (rid ca : Nat) :
    (role = Role.student → (pyStrip title = "" ∨ pyStrip description = "") →
       new_request role uid uname title description rid ca =
         Except.error CreateError.InvalidInput) ∧
    (role ≠ Role.student →
       new_request role uid uname title description rid ca =
         Except.error CreateError.NotStudent) ∧
    (role = Role.student → pyStrip title ≠ "" → pyStrip description ≠ "" →
       new_request role uid uname title description rid ca =
         Except.ok
           { id := rid
             title := pyStrip title
             description := pyStrip description
             status := "Pending Class Teacher"
             created_by := uid
             creator_username := uname
             class_teacher_status := StageStatus.Pending
             hod_status := StageStatus.Pending
             principal_status := StageStatus.Pending
             created_at := ca }) := by
  refine ⟨?_, ?_, ?_⟩
  · intro hrole hempty
    subst hrole
    simp [new_request, hempty]
  · intro hrole
    simp [new_request, hrole]
  · intro hrole ht hd
    subst hrole
    simp [new_request, ht, hd]

theorem creation_validation_amended_witness :
    new_request Role.student 7 "student1" " Leave " "2 days" 1 0 =
      Except.ok
        { id := 1
          title := pyStrip (" Leave ")
          description := pyStrip ("2 days")
          status := "Pending Class Teacher"
          created_by := 7
          creator_username := "student1"
          class_teacher_status := StageStatus.Pending
          hod_status := StageStatus.Pending
          principal_status := StageStatus.Pending
          created_at := 0 } :=
  (creation_validation_amended Role.student 7 "student1" " Leave " "2 days" 1 0).2.2
    rfl (by decide) (by decide)

/-- Claim C10: the single-request view is gated only on the prerequisite
stage being non-Pending — a hod-role caller may view a request whose
class-teacher stage is Rejected and a principal-role caller one whose hod
stage is Rejected — even though the dashboard listing excludes those very
requests from the hod and principal scopes. -/
theorem view_gate_weaker_than_listing (uid : Nat) (r : ApprovalRequest)
    (q : String) (store : List ApprovalRequest) :
    ((view_request Role.hod uid r = ViewResult.allowed ↔
        r.class_teacher_status ≠ StageStatus.Pending) ∧
     (view_request Role.principal uid r = ViewResult.allowed ↔
        r.hod_status ≠ StageStatus.Pending)) ∧
    (r.class_teacher_status = StageStatus.Rejected →
       view_request Role.hod uid r = ViewResult.allowed ∧
       r ∉ dashboard Role.hod uid q store) ∧
    (r.hod_status = StageStatus.Rejected →
       view_request Role.principal uid r = ViewResult.allowed ∧
       r ∉ dashboard Role.principal uid q store) := by
  rcases r with ⟨rid, title, description, status, cb, cu, ct, hh, pp, ca⟩
  refine ⟨⟨?_, ?_⟩, ?_, ?_⟩
  · cases ct <;> simp [view_request]
  · cases hh <;> simp [view_request]
  · intro hct
    simp only at hct
    subst hct
    refine ⟨by simp [view_request], fun hmem => ?_⟩
    have := (mem_dashboard_iff Role.hod uid q store _).mp hmem
    simp [roleScope] at this
  · intro hh2
    simp only at hh2
    subst hh2
    refine ⟨by simp [view_request], fun hmem => ?_⟩
    have := (mem_dashboard_iff Role.principal uid q store _).mp hmem
    simp [roleScope] at this

theorem view_gate_weaker_than_listing_witness :
    view_request Role.hod 0 sampleRejCT = ViewResult.allowed ∧
    sampleRejCT ∉ dashboard Role.hod 0 "" [sampleRejCT] :=
  (view_gate_weaker_than_listing 0 sampleRejCT "" [sampleRejCT]).2.1 rfl

end EApproval
